import Mathlib

/-!
Verification of the PulsePlanner task store: a shallow embedding of the
task lifecycle operations (add, update, delete), the filter/sort
projection, and the persistence round-trip, together with theorems
settling the specified properties.

The source is a React Native component.  Its state hooks become fields of
`AppState`; each operation becomes a function from the state (plus the
values the environment supplies at the call: the current clock reading and
the outcomes of the notification collaborator's calls) to the new state, the
list of notification requests issued, and the user-visible outcome.
-/

namespace PulsePlanner

/-- Task priority: `'Low' | 'Medium' | 'High'`. -/
inductive Priority
  | Low
  | Medium
  | High
deriving DecidableEq

/-- The `Task` record of the source (`type Task = { id; text; completed;
priority; category; reminderDate?; notificationId? }`).  JavaScript `Date`
values are modelled by their signed millisecond timestamp. -/
structure Task where
  id : Int
  text : String
  completed : Bool
  priority : Priority
  category : String
  reminderDate : Option Int
  notificationId : Option String
deriving DecidableEq

/-- The display filter: `'All' | 'Completed' | 'Pending'`. -/
inductive Filter
  | All
  | Completed
  | Pending
deriving DecidableEq

/-- The sort mode: `'None' | 'Priority' | 'Date'`. -/
inductive SortBy
  | None
  | Priority
  | Date
deriving DecidableEq

/-- A notification request issued to the notification collaborator:
`scheduleNotificationAsync` with the given body and trigger date, or
`cancelScheduledNotificationAsync` with the given identifier. -/
inductive Effect
  | schedule (body : String) (date : Int)
  | cancel (nid : String)
deriving DecidableEq

/-- Outcome of `addTask` as observed by the caller: success, the
validation alert for empty text, or the catch-block error alert. -/
inductive AddOutcome
  | ok
  | validationError
  | errorAlert
deriving DecidableEq

/-- Outcome of `updateTask`: success, the silent early return, or the
catch-block error alert. -/
inductive UpdateOutcome
  | ok
  | noop
  | errorAlert
deriving DecidableEq

/-- Outcome of `deleteTask`: success, or the unhandled promise rejection
that escapes the (try-less) function body. -/
inductive DeleteOutcome
  | ok
  | unhandledRejection
deriving DecidableEq

/-- Whitespace recognised by `String.prototype.trim`, restricted to the
common ASCII whitespace characters. -/
def isWhitespaceChar (c : Char) : Bool :=
  c == ' ' || c == '\t' || c == '\n' || c == '\r'

/-- Drop leading and trailing whitespace from a character list. -/
def trimChars (l : List Char) : List Char :=
  ((l.dropWhile isWhitespaceChar).reverse.dropWhile isWhitespaceChar).reverse

/-- Model of JavaScript `String.prototype.trim`. -/
def jsTrim (s : String) : String :=
  String.mk (trimChars s.data)

/-- The component state relevant to the task store: the draft-form fields
(`task`, `priority`, `category`, `reminderDate`), the collection `tasks`,
and `editingTask`. -/
structure AppState where
  task : String
  tasks : List Task
  priority : Priority
  category : String
  reminderDate : Option Int
  editingTask : Option Task
deriving DecidableEq

/-- `resetForm`: clears the draft text and category, resets priority to
`'Low'` and clears the draft reminder date. -/
def resetForm (st : AppState) : AppState :=
  { st with task := "", category := "", priority := Priority.Low, reminderDate := none }

/-- `addTask`, with the two environment-supplied values made explicit:
`now` is the clock reading (`Date.now()` / `new Date()`) and `sched` is the
outcome of the `scheduleNotificationAsync` call, when one is issued.
Mirrors the source control flow: empty-after-trim text alerts and returns;
otherwise the new task is built, and inside the `try` block a notification
is scheduled when the reminder is strictly in the future.  A scheduling
failure jumps to the `catch` block before `setTasks` runs. -/
def addTask (st : AppState) (now : Int) (sched : Except Unit String) :
    AppState × List Effect × AddOutcome :=
  if jsTrim st.task = "" then
    (st, [], AddOutcome.validationError)
  else
    let newTask : Task :=
      { id := now
        text := jsTrim st.task
        completed := false
        priority := st.priority
        category := jsTrim st.category
        reminderDate := st.reminderDate
        notificationId := none }
    match st.reminderDate with
    | some d =>
      if now < d then
        match sched with
        | Except.ok nid =>
          (resetForm { st with
              tasks := st.tasks ++ [{ newTask with notificationId := some nid }] },
            [Effect.schedule (jsTrim st.task) d], AddOutcome.ok)
        | Except.error _ =>
          (st, [Effect.schedule (jsTrim st.task) d], AddOutcome.errorAlert)
      else
        (resetForm { st with tasks := st.tasks ++ [newTask] }, [], AddOutcome.ok)
    | none =>
      (resetForm { st with tasks := st.tasks ++ [newTask] }, [], AddOutcome.ok)

/-- The replacement step of `updateTask`: `setTasks(tasks.map(...))`
replacing the matching task's fields, then `setEditingTask(null)` and
`resetForm()`. -/
def applyUpdate (st : AppState) (et : Task) (nid : Option String) : AppState :=
  resetForm { st with
    tasks := st.tasks.map (fun t =>
      if t.id = et.id then
        { t with
          text := jsTrim st.task
          priority := st.priority
          category := jsTrim st.category
          reminderDate := st.reminderDate
          notificationId := nid }
      else t)
    editingTask := none }

/-- The tail of `updateTask` after the old notification (if any) has been
cancelled successfully: schedule a new notification when the draft
reminder is strictly in the future, then replace the task's fields.
`effs` carries the requests already issued. -/
def continueUpdate (st : AppState) (et : Task) (now : Int)
    (sched : Except Unit String) (effs : List Effect) :
    AppState × List Effect × UpdateOutcome :=
  match st.reminderDate with
  | some d =>
    if now < d then
      match sched with
      | Except.ok nid =>
        (applyUpdate st et (some nid),
          effs ++ [Effect.schedule (jsTrim st.task) d], UpdateOutcome.ok)
      | Except.error _ =>
        (st, effs ++ [Effect.schedule (jsTrim st.task) d], UpdateOutcome.errorAlert)
    else
      (applyUpdate st et none, effs, UpdateOutcome.ok)
  | none =>
    (applyUpdate st et none, effs, UpdateOutcome.ok)

/-- `updateTask`: silent return when nothing is being edited or the draft
text trims to empty; otherwise the `try` block first cancels the old
notification when the edited task has one (a failure jumps to `catch`,
leaving the state untouched), then proceeds to schedule and replace. -/
def updateTask (st : AppState) (now : Int) (cancelRes : Except Unit Unit)
    (sched : Except Unit String) : AppState × List Effect × UpdateOutcome :=
  match st.editingTask with
  | none => (st, [], UpdateOutcome.noop)
  | some et =>
    if jsTrim st.task = "" then
      (st, [], UpdateOutcome.noop)
    else
      match et.notificationId with
      | some nid =>
        match cancelRes with
        | Except.error _ => (st, [Effect.cancel nid], UpdateOutcome.errorAlert)
        | Except.ok _ => continueUpdate st et now sched [Effect.cancel nid]
      | none => continueUpdate st et now sched []

/-- `deleteTask`: looks the task up; if it carries a notification id, a
cancellation is awaited with no surrounding try/catch, so a failure
escapes as an unhandled rejection before `setTasks` runs; otherwise the
task is filtered out of the collection. -/
def deleteTask (st : AppState) (targetId : Int) (cancelRes : Except Unit Unit) :
    AppState × List Effect × DeleteOutcome :=
  match st.tasks.find? (fun t => t.id == targetId) with
  | some t =>
    match t.notificationId with
    | some nid =>
      match cancelRes with
      | Except.error _ => (st, [Effect.cancel nid], DeleteOutcome.unhandledRejection)
      | Except.ok _ =>
        ({ st with tasks := st.tasks.filter (fun u => u.id != targetId) },
          [Effect.cancel nid], DeleteOutcome.ok)
    | none =>
      ({ st with tasks := st.tasks.filter (fun u => u.id != targetId) },
        [], DeleteOutcome.ok)
  | none =>
    ({ st with tasks := st.tasks.filter (fun u => u.id != targetId) },
      [], DeleteOutcome.ok)

/-- The filter predicate of `filteredTasks`. -/
def taskFilterPred : Filter → Task → Bool
  | Filter.Completed, t => t.completed
  | Filter.Pending, t => !t.completed
  | Filter.All, _ => true

/-- The priority weights of the source comparator: High=3, Medium=2, Low=1. -/
def priorityWeight : Priority → Nat
  | Priority.High => 3
  | Priority.Medium => 2
  | Priority.Low => 1

/-- The date sort key: `a.reminderDate?.getTime() || 0`, i.e. the
millisecond timestamp with absence collapsing to `0`. -/
def dateKey (t : Task) : Int :=
  t.reminderDate.getD 0

/-- The comparator of `filteredTasks.sort`, as the total preorder `le a b
iff comparator(a, b) ≤ 0`.  Priority compares descending by weight; Date
ascending by `dateKey`; None always returns 0. -/
def sortLe : SortBy → Task → Task → Bool
  | SortBy.Priority, a, b => decide (priorityWeight b.priority ≤ priorityWeight a.priority)
  | SortBy.Date, a, b => decide (dateKey a ≤ dateKey b)
  | SortBy.None, _, _ => true

/-- `filteredTasks`: filter by the display filter, then a stable sort by
the comparator (JavaScript `Array.prototype.sort` is stable). -/
def filteredTasks (tasks : List Task) (f : Filter) (sb : SortBy) : List Task :=
  (tasks.filter (taskFilterPred f)).mergeSort (sortLe sb)

/-- The projection as a step on the component state: the source computes
`filteredTasks` as a pure expression over `tasks` and issues no `setTasks`,
so the stored state component is returned unchanged. -/
def projectOp (st : AppState) (f : Filter) (sb : SortBy) : List Task × AppState :=
  (filteredTasks st.tasks f sb, st)

/-- Decimal digit (below 10) to its character. -/
def digitToChar (d : Nat) : Char :=
  Char.ofNat (48 + d)

/-- Character back to its decimal digit value. -/
def charToDigit (c : Char) : Nat :=
  c.toNat - 48

/-- Decimal character representation of a natural number, most significant
digit first. -/
def natChars (n : Nat) : List Char :=
  if n = 0 then ['0'] else ((Nat.digits 10 n).map digitToChar).reverse

/-- Parse a decimal character list back to a natural number. -/
def decodeNatChars (l : List Char) : Nat :=
  Nat.ofDigits 10 (l.reverse.map charToDigit)

/-- Modelled from the spec: `JSON.stringify` serializes a `Date` to a
standard textual timestamp (ISO-8601) — the codec itself is platform code,
absent from the repository.  It is modelled as the signed decimal string of
the millisecond timestamp: an injective textual encoding of the date. -/
def encodeDate (d : Int) : String :=
  if d < 0 then String.mk ('-' :: natChars d.natAbs) else String.mk (natChars d.natAbs)

/-- Modelled from the spec: `new Date(string)` reconstructs a date from its
textual timestamp; modelled as the parse of `encodeDate`. -/
def decodeDate (s : String) : Int :=
  if s.data.head? = some '-' then -(decodeNatChars s.data.tail : Nat)
  else (decodeNatChars s.data : Nat)

/-- The persisted shape of a task: what `JSON.parse` yields from the
stored string, with `reminderDate` in its string form (the key is omitted
when the reminder is absent). -/
structure StoredTask where
  id : Int
  text : String
  completed : Bool
  priority : Priority
  category : String
  reminderDate : Option String
  notificationId : Option String
deriving DecidableEq

/-- The serialization step of `saveTasks`: all fields pass through JSON
unchanged except the reminder date, which serializes to its string form. -/
def taskToStored (t : Task) : StoredTask :=
  { id := t.id
    text := t.text
    completed := t.completed
    priority := t.priority
    category := t.category
    reminderDate := t.reminderDate.map encodeDate
    notificationId := t.notificationId }

/-- The per-task step of `loadTasks`:
`{ ...task, reminderDate: task.reminderDate ? new Date(task.reminderDate) : undefined }`.
A falsy string form (the empty string) collapses to absence, like the
absent key. -/
def storedToTask (s : StoredTask) : Task :=
  { id := s.id
    text := s.text
    completed := s.completed
    priority := s.priority
    category := s.category
    reminderDate :=
      match s.reminderDate with
      | some str => if str = "" then none else some (decodeDate str)
      | none => none
    notificationId := s.notificationId }

/-- `saveTasks`: the collection as persisted. -/
def saveTasks (ts : List Task) : List StoredTask :=
  ts.map taskToStored

/-- `loadTasks`: the persisted collection mapped back to tasks. -/
def loadTasks (ts : List StoredTask) : List Task :=
  ts.map storedToTask

/-- One add interaction of a session: the form contents the user entered,
the clock reading at the call, and the outcome of the scheduling call. -/
structure AddStep where
  now : Int
  text : String
  priority : Priority
  category : String
  reminderDate : Option Int
  sched : Except Unit String

/-- Fill the draft form with the contents of one add interaction. -/
def fillForm (st : AppState) (s : AddStep) : AppState :=
  { st with
    task := s.text
    priority := s.priority
    category := s.category
    reminderDate := s.reminderDate }

/-- Run a sequence of add interactions: each fills the form and invokes
`addTask`. -/
def runAdds (st : AppState) (steps : List AddStep) : AppState :=
  match steps with
  | [] => st
  | s :: rest => runAdds (addTask (fillForm st s) s.now s.sched).1 rest

/-- A state with an empty collection and a clean form. -/
def emptyState : AppState :=
  { task := "", tasks := [], priority := Priority.Low, category := "",
    reminderDate := none, editingTask := none }

/-- Draft state for the add counterexamples/witnesses: non-blank text and
a reminder at millisecond 5000. -/
def stAdd : AppState :=
  { task := "Call mom", tasks := [], priority := Priority.Medium, category := "",
    reminderDate := some 5000, editingTask := none }

/-- A stored task carrying a scheduled notification id. -/
def tNotif : Task :=
  { id := 1, text := "Call mom", completed := false, priority := Priority.Low,
    category := "", reminderDate := some 5000, notificationId := some "n1" }

/-- State holding `tNotif`, used by the delete counterexample/witness. -/
def stDel : AppState :=
  { task := "", tasks := [tNotif], priority := Priority.Low, category := "",
    reminderDate := none, editingTask := none }

/-- State editing `tNotif` with fresh draft fields, used by the update
counterexample/witness. -/
def stUpd : AppState :=
  { task := "New text", tasks := [tNotif], priority := Priority.High,
    category := "Work", reminderDate := none, editingTask := some tNotif }

/-- A task whose reminder predates the epoch (millisecond -1). -/
def tPreEpoch : Task :=
  { id := 1, text := "a", completed := false, priority := Priority.Low,
    category := "", reminderDate := some (-1), notificationId := none }

/-- A task with no reminder. -/
def tNoReminder : Task :=
  { id := 2, text := "b", completed := false, priority := Priority.Low,
    category := "", reminderDate := none, notificationId := none }

/-- Blank-text draft state for the validation witness. -/
def stBlank : AppState :=
  { task := "   ", tasks := [tNotif], priority := Priority.High, category := "x",
    reminderDate := some 5000, editingTask := none }

/-- Draft state whose reminder (millisecond 50) is already in the past at
clock reading 100. -/
def stPast : AppState :=
  { task := "Buy milk", tasks := [], priority := Priority.Medium,
    category := "Shopping", reminderDate := some 50, editingTask := none }

/-- Two add interactions observed at the same clock millisecond. -/
def stepSameA : AddStep :=
  { now := 1000, text := "a", priority := Priority.Low, category := "",
    reminderDate := none, sched := Except.ok "x" }

/-- Second add interaction at the same clock millisecond. -/
def stepSameB : AddStep :=
  { now := 1000, text := "b", priority := Priority.Low, category := "",
    reminderDate := none, sched := Except.ok "y" }

/-- Two add interactions at strictly increasing clock readings. -/
def stepDistinctA : AddStep :=
  { now := 1000, text := "a", priority := Priority.Low, category := "",
    reminderDate := none, sched := Except.ok "x" }

/-- Second add interaction, one millisecond later. -/
def stepDistinctB : AddStep :=
  { now := 1001, text := "b", priority := Priority.Low, category := "",
    reminderDate := none, sched := Except.ok "y" }

/-!
Helper lemmas.
-/

/-- Requests already issued are preserved by the tail of `updateTask`. -/
lemma mem_effects_continueUpdate (st : AppState) (et : Task) (now : Int)
    (sr : Except Unit String) (effs : List Effect) (x : Effect) (hx : x ∈ effs) :
    x ∈ (continueUpdate st et now sr effs).2.1 := by
  unfold continueUpdate
  cases h : st.reminderDate with
  | none => simpa using hx
  | some d =>
    by_cases hd : now < d
    · cases sr with
      | ok nid => simp only [hd, if_pos]; exact List.mem_append_left _ hx
      | error e => simp only [hd, if_pos]; exact List.mem_append_left _ hx
    · simp only [hd, if_neg, ite_false]
      exact hx

/-- The comparator order is transitive for every sort mode. -/
lemma sortLe_trans (sb : SortBy) :
    ∀ a b c : Task, sortLe sb a b → sortLe sb b c → sortLe sb a c := by
  cases sb <;> intro a b c hab hbc <;> simp [sortLe] at * <;> omega

/-- The comparator order is total for every sort mode. -/
lemma sortLe_total (sb : SortBy) : ∀ a b : Task, sortLe sb a b || sortLe sb b a := by
  cases sb <;> intro a b <;> simp [sortLe] <;> omega

/-- Stability of the sort: a class of pairwise comparator-equivalent
elements keeps exactly the filtered input, in order. -/
lemma filter_mergeSort_of_le (le : Task → Task → Bool)
    (htrans : ∀ a b c : Task, le a b → le b c → le a c)
    (htotal : ∀ a b : Task, le a b || le b a)
    (p : Task → Bool) (hp : ∀ a b : Task, p a → p b → le a b)
    (l : List Task) :
    (l.mergeSort le).filter p = l.filter p := by
  have hc : (l.filter p).Pairwise (fun a b => le a b = true) := by
    apply List.pairwise_of_forall_mem_list
    intro a ha b hb
    exact hp a b (List.mem_filter.mp ha).2 (List.mem_filter.mp hb).2
  have h1 : List.Sublist (l.filter p) (l.mergeSort le) :=
    List.sublist_mergeSort htrans htotal hc (List.filter_sublist l)
  have h2 : List.Sublist ((l.filter p).filter p) ((l.mergeSort le).filter p) :=
    h1.filter p
  have h3 : (l.filter p).filter p = l.filter p := by
    simp [List.filter_filter]
  rw [h3] at h2
  have h4 : List.Perm ((l.mergeSort le).filter p) (l.filter p) :=
    (List.mergeSort_perm l le).filter p
  exact (h2.eq_of_length h4.length_eq.symm).symm

/-- Digit characters decode back to their digit value. -/
lemma charToDigit_digitToChar (d : Nat) (hd : d < 10) :
    charToDigit (digitToChar d) = d := by
  interval_cases d <;> decide

/-- Decimal rendering of a natural number parses back to it. -/
lemma decodeNatChars_natChars (n : Nat) : decodeNatChars (natChars n) = n := by
  by_cases h : n = 0
  · subst h; decide
  · unfold natChars decodeNatChars
    rw [if_neg h, List.reverse_reverse, List.map_map]
    have hmap : (Nat.digits 10 n).map (charToDigit ∘ digitToChar) = Nat.digits 10 n := by
      conv_rhs => rw [← List.map_id (Nat.digits 10 n)]
      apply List.map_congr_left
      intro d hd
      exact charToDigit_digitToChar d (Nat.digits_lt_base (by norm_num) hd)
    rw [hmap, Nat.ofDigits_digits]

/-- The decimal rendering is never empty. -/
lemma natChars_ne_nil (n : Nat) : natChars n ≠ [] := by
  unfold natChars
  by_cases h : n = 0
  · simp [h]
  · rw [if_neg h]
    simp [Nat.digits_ne_nil_iff_ne_zero, h]

/-- No character of the decimal rendering is the minus sign. -/
lemma natChars_no_hyphen (n : Nat) : ∀ c ∈ natChars n, c ≠ '-' := by
  unfold natChars
  by_cases h : n = 0
  · simp [h]
  · rw [if_neg h]
    intro c hc
    rw [List.mem_reverse] at hc
    obtain ⟨d, hd, rfl⟩ := List.mem_map.mp hc
    have hlt : d < 10 := Nat.digits_lt_base (by norm_num) hd
    interval_cases d <;> decide

/-- The textual timestamp parses back to the encoded timestamp. -/
lemma decodeDate_encodeDate (d : Int) : decodeDate (encodeDate d) = d := by
  unfold encodeDate decodeDate
  by_cases h : d < 0
  · rw [if_pos h]
    have hdata : (String.mk ('-' :: natChars d.natAbs)).data = '-' :: natChars d.natAbs := rfl
    rw [hdata]
    simp only [List.head?, List.tail, if_true]
    rw [decodeNatChars_natChars]
    omega
  · rw [if_neg h]
    have hdata : (String.mk (natChars d.natAbs)).data = natChars d.natAbs := rfl
    rw [hdata]
    have hh : (natChars d.natAbs).head? ≠ some '-' := by
      cases hnc : natChars d.natAbs with
      | nil => simp
      | cons c rest =>
        have hne : c ≠ '-' :=
          natChars_no_hyphen d.natAbs c (by rw [hnc]; exact List.mem_cons_self _ _)
        simp [hne]
    rw [if_neg hh, decodeNatChars_natChars]
    omega

/-- The textual timestamp is never the empty (falsy) string. -/
lemma encodeDate_ne_empty (d : Int) : encodeDate d ≠ "" := by
  unfold encodeDate
  by_cases h : d < 0
  · rw [if_pos h]
    intro hcon
    have hdat : ('-' :: natChars d.natAbs) = ("" : String).data := congrArg String.data hcon
    simp at hdat
  · rw [if_neg h]
    intro hcon
    have hdat : natChars d.natAbs = ("" : String).data := congrArg String.data hcon
    exact natChars_ne_nil d.natAbs (by simpa using hdat)

/-- An add either leaves the collection unchanged or appends exactly one
task whose id is the clock reading. -/
lemma addTask_tasks_cases (st : AppState) (now : Int) (sr : Except Unit String) :
    (addTask st now sr).1.tasks = st.tasks ∨
    ∃ t : Task, (addTask st now sr).1.tasks = st.tasks ++ [t] ∧ t.id = now := by
  by_cases h : jsTrim st.task = ""
  · left
    simp [addTask, h]
  · cases hr : st.reminderDate with
    | none =>
      right
      refine ⟨Task.mk now (jsTrim st.task) false st.priority (jsTrim st.category)
        none none, ?_, rfl⟩
      simp [addTask, resetForm, h, hr]
    | some d =>
      by_cases hd : now < d
      · cases sr with
        | ok nid =>
          right
          refine ⟨Task.mk now (jsTrim st.task) false st.priority (jsTrim st.category)
            (some d) (some nid), ?_, rfl⟩
          simp [addTask, resetForm, h, hr, hd]
        | error e =>
          left
          simp [addTask, h, hr, hd]
      · right
        refine ⟨Task.mk now (jsTrim st.task) false st.priority (jsTrim st.category)
          (some d) none, ?_, rfl⟩
        simp [addTask, resetForm, h, hr, hd]

/-- The ids present after a run of adds form a sublist of the initial ids
followed by the clock readings of the steps. -/
lemma runAdds_ids_sublist (steps : List AddStep) (st : AppState) :
    List.Sublist ((runAdds st steps).tasks.map (fun t => t.id))
      (st.tasks.map (fun t => t.id) ++ steps.map (fun s => s.now)) := by
  induction steps generalizing st with
  | nil => simp [runAdds]
  | cons s rest ih =>
    simp only [runAdds, List.map_cons]
    have hrec := ih (addTask (fillForm st s) s.now s.sched).1
    rcases addTask_tasks_cases (fillForm st s) s.now s.sched with hsame | ⟨t, ht, hid⟩
    · rw [hsame] at hrec
      exact hrec.trans
        ((List.sublist_cons_self s.now (rest.map (fun u => u.now))).append_left _)
    · rw [ht] at hrec
      rw [List.map_append, List.append_assoc] at hrec
      simpa [hid] using hrec

/-!
Claim theorems.
-/

/-- C1 counterexample: a failing schedule call leaves the collection
empty — the task is not appended, contrary to the claim. -/
theorem claim_C1_counterexample :
    stAdd.tasks = [] ∧
    addTask stAdd 1000 (Except.error ()) =
      (stAdd, [Effect.schedule "Call mom" 5000], AddOutcome.errorAlert) := by
  decide

/-- C1 amended: when scheduling fails, the add is aborted by the catch
block — the state (collection included) is unchanged and the error alert
is reported; only the schedule request was issued. -/
theorem claim_C1_amended (st : AppState) (now d : Int) (e : Unit)
    (h1 : ¬ jsTrim st.task = "") (h2 : st.reminderDate = some d) (h3 : now < d) :
    addTask st now (Except.error e) =
      (st, [Effect.schedule (jsTrim st.task) d], AddOutcome.errorAlert) := by
  simp [addTask, h1, h2, h3]

/-- C1 witness. -/
theorem claim_C1_witness :
    (¬ jsTrim stAdd.task = "") ∧ stAdd.reminderDate = some 5000 ∧
    addTask stAdd 1000 (Except.error ()) =
      (stAdd, [Effect.schedule (jsTrim stAdd.task) 5000], AddOutcome.errorAlert) :=
  ⟨by decide, by decide,
    claim_C1_amended stAdd 1000 5000 () (by decide) (by decide) (by decide)⟩

/-- C2 counterexample: after a failing cancellation the task is still in
the collection, contrary to the claim that deletion proceeds. -/
theorem claim_C2_counterexample :
    stDel.tasks = [tNotif] ∧
    deleteTask stDel 1 (Except.error ()) =
      (stDel, [Effect.cancel "n1"], DeleteOutcome.unhandledRejection) := by
  decide

/-- C2 amended: a failing cancellation escapes `deleteTask` (which has no
try/catch) as an unhandled rejection before `setTasks` runs, so the task
is not removed and nothing is logged. -/
theorem claim_C2_amended (st : AppState) (i : Int) (t : Task) (nid : String) (e : Unit)
    (hf : st.tasks.find? (fun u => u.id == i) = some t)
    (hn : t.notificationId = some nid) :
    deleteTask st i (Except.error e) =
      (st, [Effect.cancel nid], DeleteOutcome.unhandledRejection) := by
  simp [deleteTask, hf, hn]

/-- C2 witness. -/
theorem claim_C2_witness :
    stDel.tasks.find? (fun u => u.id == 1) = some tNotif ∧
    tNotif.notificationId = some "n1" ∧
    deleteTask stDel 1 (Except.error ()) =
      (stDel, [Effect.cancel "n1"], DeleteOutcome.unhandledRejection) :=
  ⟨by decide, by decide, claim_C2_amended stDel 1 tNotif "n1" () (by decide) (by decide)⟩

/-- C3 counterexample: a failing cancellation leaves the edited task's
fields unreplaced (the state is returned unchanged), contrary to the claim
that the update still goes through. -/
theorem claim_C3_counterexample :
    stUpd.tasks = [tNotif] ∧
    updateTask stUpd 0 (Except.error ()) (Except.ok "n2") =
      (stUpd, [Effect.cancel "n1"], UpdateOutcome.errorAlert) := by
  decide

/-- C3 amended: the old notification's cancellation is requested
unconditionally, but a cancellation failure does block the update: the
catch block leaves the state untouched and reports the error alert. -/
theorem claim_C3_amended (st : AppState) (et : Task) (nid : String) (now : Int)
    (sr : Except Unit String) (e : Unit)
    (h1 : st.editingTask = some et) (h2 : et.notificationId = some nid)
    (h3 : ¬ jsTrim st.task = "") :
    (∀ cr : Except Unit Unit, Effect.cancel nid ∈ (updateTask st now cr sr).2.1) ∧
    updateTask st now (Except.error e) sr =
      (st, [Effect.cancel nid], UpdateOutcome.errorAlert) := by
  constructor
  · intro cr
    cases cr with
    | error u => simp [updateTask, h1, h2, h3]
    | ok u =>
      simp only [updateTask, h1, h2, h3, ite_false, if_neg]
      exact mem_effects_continueUpdate st et now sr [Effect.cancel nid] _ (by simp)
  · simp [updateTask, h1, h2, h3]

/-- C3 witness. -/
theorem claim_C3_witness :
    stUpd.editingTask = some tNotif ∧
    Effect.cancel "n1" ∈ (updateTask stUpd 0 (Except.ok ()) (Except.ok "n2")).2.1 ∧
    updateTask stUpd 0 (Except.error ()) (Except.ok "n2") =
      (stUpd, [Effect.cancel "n1"], UpdateOutcome.errorAlert) :=
  ⟨by decide,
    (claim_C3_amended stUpd tNotif "n1" 0 (Except.ok "n2") ()
      (by decide) (by decide) (by decide)).1 (Except.ok ()),
    (claim_C3_amended stUpd tNotif "n1" 0 (Except.ok "n2") ()
      (by decide) (by decide) (by decide)).2⟩

/-- C4 amended: the Date projection is non-decreasing in the sort key
(the reminder timestamp with absence collapsed to the epoch 0); hence a
task whose reminder is strictly after the epoch is never followed by a
reminder-less task.  Absence does not sort as the earliest possible value:
it ties with the epoch itself and follows pre-epoch reminders. -/
theorem claim_C4_amended (ts : List Task) (f : Filter) :
    ((filteredTasks ts f SortBy.Date).Pairwise (fun a b => dateKey a ≤ dateKey b)) ∧
    ((filteredTasks ts f SortBy.Date).Pairwise
      (fun a b => 0 < dateKey a → b.reminderDate ≠ none)) := by
  have hs := List.sorted_mergeSort (sortLe_trans SortBy.Date) (sortLe_total SortBy.Date)
    (ts.filter (taskFilterPred f))
  constructor
  · exact hs.imp (fun h => by simpa [sortLe] using h)
  · refine hs.imp ?_
    intro a b h hpos hnone
    have hle : dateKey a ≤ dateKey b := by simpa [sortLe] using h
    have hb0 : dateKey b = 0 := by simp [dateKey, hnone]
    omega

/-- C4 counterexample: a pre-epoch reminder (millisecond -1) sorts before
a task with no reminder, so a task that has a reminder precedes one that
lacks one. -/
theorem claim_C4_counterexample :
    filteredTasks [tPreEpoch, tNoReminder] Filter.All SortBy.Date =
      [tPreEpoch, tNoReminder] ∧
    tPreEpoch.reminderDate = some (-1) ∧ tNoReminder.reminderDate = none := by
  refine ⟨?_, by decide, by decide⟩
  unfold filteredTasks
  have hf : ([tPreEpoch, tNoReminder].filter (taskFilterPred Filter.All)) =
      [tPreEpoch, tNoReminder] := by decide
  rw [hf]
  exact List.mergeSort_of_sorted (by decide)

/-- C5: the Priority projection is non-increasing in priority weight, and
tasks of equal priority retain their relative order from the filtered
input (the sort is stable). -/
theorem claim_C5 (ts : List Task) (f : Filter) :
    ((filteredTasks ts f SortBy.Priority).Pairwise
      (fun a b => priorityWeight b.priority ≤ priorityWeight a.priority)) ∧
    (∀ p : Priority,
      (filteredTasks ts f SortBy.Priority).filter (fun t => t.priority == p) =
        (ts.filter (taskFilterPred f)).filter (fun t => t.priority == p)) := by
  constructor
  · have hs := List.sorted_mergeSort (sortLe_trans SortBy.Priority)
      (sortLe_total SortBy.Priority) (ts.filter (taskFilterPred f))
    exact hs.imp (fun h => by simpa [sortLe] using h)
  · intro p
    apply filter_mergeSort_of_le _ (sortLe_trans SortBy.Priority)
      (sortLe_total SortBy.Priority)
    intro a b ha hb
    have ha2 : a.priority = p := by simpa using ha
    have hb2 : b.priority = p := by simpa using hb
    simp [sortLe, ha2, hb2]

/-- C6: serializing the collection and loading it back restores every
task exactly; a present reminder round-trips through its string form and
an absent reminder round-trips as absence. -/
theorem claim_C6 (ts : List Task) : loadTasks (saveTasks ts) = ts := by
  unfold loadTasks saveTasks
  rw [List.map_map]
  conv_rhs => rw [← List.map_id ts]
  apply List.map_congr_left
  intro t ht
  show storedToTask (taskToStored t) = t
  obtain ⟨i, tx, c, p, cat, rd, nid⟩ := t
  cases rd with
  | none => rfl
  | some v =>
    simp only [taskToStored, storedToTask, Option.map]
    rw [if_neg (encodeDate_ne_empty v), decodeDate_encodeDate]

/-- C7: an add whose draft text is empty after trimming fails with the
validation alert and changes nothing. -/
theorem claim_C7 (st : AppState) (now : Int) (sched : Except Unit String)
    (h : jsTrim st.task = "") :
    addTask st now sched = (st, [], AddOutcome.validationError) := by
  simp [addTask, h]

/-- C7 witness at a whitespace-only draft. -/
theorem claim_C7_witness :
    jsTrim stBlank.task = "" ∧
    addTask stBlank 0 (Except.ok "z") = (stBlank, [], AddOutcome.validationError) :=
  ⟨by decide, claim_C7 stBlank 0 (Except.ok "z") (by decide)⟩

/-- C8 counterexample: two adds observed at the same clock millisecond
produce two tasks with the same id. -/
theorem claim_C8_counterexample :
    stepSameA.now = 1000 ∧ stepSameB.now = 1000 ∧
    (runAdds emptyState [stepSameA, stepSameB]).tasks.map (fun t => t.id) =
      [1000, 1000] := by
  decide

/-- C8 amended: ids never collide provided the initial ids and the clock
readings of the adds are pairwise distinct — the id source is the wall
clock, so two adds within the same millisecond do collide. -/
theorem claim_C8_amended (st : AppState) (steps : List AddStep)
    (h : (st.tasks.map (fun t => t.id) ++ steps.map (fun s => s.now)).Nodup) :
    ((runAdds st steps).tasks.map (fun t => t.id)).Nodup :=
  List.Nodup.sublist (runAdds_ids_sublist steps st) h

/-- C8 witness: with strictly increasing clock readings the resulting ids
are pairwise distinct. -/
theorem claim_C8_witness :
    (emptyState.tasks.map (fun t => t.id) ++
      [stepDistinctA, stepDistinctB].map (fun s => s.now)).Nodup ∧
    ((runAdds emptyState [stepDistinctA, stepDistinctB]).tasks.map
      (fun t => t.id)).Nodup :=
  ⟨by decide, claim_C8_amended emptyState [stepDistinctA, stepDistinctB] (by decide)⟩

/-- C9: the projection leaves the stored state unchanged and returns a new
sequence holding exactly the filtered tasks. -/
theorem claim_C9 (st : AppState) (f : Filter) (sb : SortBy) :
    (projectOp st f sb).2 = st ∧
    ((projectOp st f sb).1).Perm (st.tasks.filter (taskFilterPred f)) :=
  ⟨rfl, List.mergeSort_perm _ _⟩

/-- C10: a present reminder that is not strictly in the future is kept on
the created task while no notification is scheduled and no notification id
is recorded. -/
theorem claim_C10 (st : AppState) (now d : Int) (sr : Except Unit String)
    (h1 : ¬ jsTrim st.task = "") (h2 : st.reminderDate = some d) (h3 : ¬ now < d) :
    addTask st now sr =
      (resetForm { st with
          tasks := st.tasks ++
            [{ id := now, text := jsTrim st.task, completed := false,
               priority := st.priority, category := jsTrim st.category,
               reminderDate := some d, notificationId := none }] },
        [], AddOutcome.ok) := by
  simp [addTask, h1, h2, h3]

/-- C10 witness at a reminder already in the past. -/
theorem claim_C10_witness :
    (¬ jsTrim stPast.task = "") ∧ stPast.reminderDate = some 50 ∧ (¬ (100 : Int) < 50) ∧
    addTask stPast 100 (Except.ok "z") =
      (resetForm { stPast with
          tasks := stPast.tasks ++
            [{ id := 100, text := jsTrim stPast.task, completed := false,
               priority := stPast.priority, category := jsTrim stPast.category,
               reminderDate := some 50, notificationId := none }] },
        [], AddOutcome.ok) :=
  ⟨by decide, by decide, by decide,
    claim_C10 stPast 100 50 (Except.ok "z") (by decide) (by decide) (by decide)⟩

end PulsePlanner

